import Mathlib

/-!
# Verification of the Smart-Bookmark reconciliation layer

A shallow embedding of the client-side reconciliation logic of the
bookmark manager (`src/components/BookmarkManager.tsx`) and of the
server-side snapshot loader (`src/app/dashboard/page.tsx`), together
with proofs of the specified properties.

Platform primitives (React `useState` state cells, `setTimeout`, the
WHATWG `URL` constructor, the Supabase query/notification API) are not
code of this repository; they are modelled by explicit state passing,
an explicit timer list, a scheme-validity check, and oracle
parameters, as documented on each definition.
-/

namespace SmartBookmark

/-- The `Bookmark` record type of `BookmarkManager.tsx` (lines 7-12),
with fields `id`, `url`, `title` and `created_at`.  The `created_at`
timestamp (an ISO string assigned by the store) is modelled as a
natural number ordered by time. -/
structure Bookmark where
  id : String
  url : String
  title : String
  created_at : Nat
deriving DecidableEq, Repr

/-- A stored row as the backend holds it and as notification payloads
carry it: a `Bookmark` together with its owner reference `user_id`,
matching the payload cast to a `Bookmark` intersected with a `user_id`
field. -/
structure StoredRow where
  id : String
  url : String
  title : String
  user_id : String
  created_at : Nat
deriving DecidableEq, Repr

/-- Dropping the owner reference: how a notification payload or an
insert response row is consumed as a `Bookmark` by the client. -/
def StoredRow.toBookmark (r : StoredRow) : Bookmark :=
  ⟨r.id, r.url, r.title, r.created_at⟩

/-- The connectivity status enum `realtimeStatus` (line 33-35):
`"connecting" | "connected" | "error"`. -/
inductive RealtimeStatus where
  | connecting
  | connected
  | error
deriving DecidableEq, Repr

/-- The statuses a Supabase channel `subscribe` callback can receive
(external API): `SUBSCRIBED`, `CHANNEL_ERROR`, `TIMED_OUT`, `CLOSED`. -/
inductive SubStatus where
  | SUBSCRIBED
  | CHANNEL_ERROR
  | TIMED_OUT
  | CLOSED
deriving DecidableEq, Repr

/-- The transient client state of `BookmarkManager` (lines 26-36),
with each React `useState` cell as a field.  The JavaScript
`Set<string>` `newIds` is modelled as a duplicate-free list of
identifiers; `timers` records the pending `setTimeout` callbacks
scheduled by `addToList` as `(identifier, fire time)` pairs. -/
structure CtrlState where
  bookmarks : List Bookmark
  url : String
  title : String
  loading : Bool
  deleting : Option String
  error : Option String
  newIds : List String
  timers : List (String × Nat)
  realtimeStatus : RealtimeStatus
deriving DecidableEq, Repr

/-- JavaScript `Set.add`: a no-op when the element is already present. -/
def setAdd (x : String) (l : List String) : List String :=
  if l.contains x then l else x :: l

/-- Function `addToList` (lines 39-53), at current time `now`: prepend the
record unless a record with the same `id` is already in the list;
unconditionally add the `id` to `newIds` and schedule a `setTimeout`
callback 2000 ms ahead that will delete it again. -/
def addToList (now : Nat) (bookmark : Bookmark) (s : CtrlState) : CtrlState :=
  { s with
    bookmarks :=
      if s.bookmarks.any (fun b => b.id == bookmark.id) then s.bookmarks
      else bookmark :: s.bookmarks
    newIds := setAdd bookmark.id s.newIds
    timers := (bookmark.id, now + 2000) :: s.timers }

/-- Function `removeFromList` (lines 55-57): drop every record whose `id`
matches (a no-op when absent). -/
def removeFromList (id : String) (s : CtrlState) : CtrlState :=
  { s with bookmarks := s.bookmarks.filter (fun b => b.id != id) }

/-- The `setTimeout` callback scheduled by `addToList` (lines 46-52)
running for timer `(id, t)`: `Set.delete id` on `newIds`.  The runtime
runs it when time `t` arrives; the timer is then spent. -/
def fireTimer (id : String) (t : Nat) (s : CtrlState) : CtrlState :=
  { s with
    newIds := s.newIds.filter (fun x => x != id)
    timers := s.timers.erase (id, t) }

/-- The realtime INSERT notification handler (lines 79-84): the
client-side ownership check discards any payload whose `user_id`
differs from the current session's `user.id`; otherwise the payload is
merged through `addToList`. -/
def handleInsert (userId : String) (now : Nat) (payload : StoredRow)
    (s : CtrlState) : CtrlState :=
  if payload.user_id != userId then s
  else addToList now payload.toBookmark s

/-- The realtime DELETE notification handler (lines 93-97): removal by
identifier alone, with no owner check. -/
def handleDelete (payload : StoredRow) (s : CtrlState) : CtrlState :=
  removeFromList payload.id s

/-- The `subscribe` status callback (lines 99-108): the new status is a
function of the incoming event alone — `SUBSCRIBED ↦ connected`,
`CHANNEL_ERROR`/`TIMED_OUT ↦ error`, anything else (`CLOSED`) `↦
connecting` — irrespective of the current status value. -/
def statusOfEvent (status : SubStatus) : RealtimeStatus :=
  if status == .SUBSCRIBED then .connected
  else if status == .CHANNEL_ERROR || status == .TIMED_OUT then .error
  else .connecting

/-- The subscribe callback applied to the controller state. -/
def onSubscribeStatus (status : SubStatus) (s : CtrlState) : CtrlState :=
  { s with realtimeStatus := statusOfEvent status }

/-! ## Event-level semantics

All paths that mutate the bookmark list go through `addToList` /
`removeFromList` (plus the wholesale rollback replacement inside
`deleteBookmark`, treated separately below).  An `Event` is one such
call together with its trigger, and a run folds a sequence of events
over a state — faithful to the single-threaded event-loop execution
model, where each callback runs atomically. -/

/-- One reconciliation event processed by the controller's event loop. -/
inductive Event where
  /-- A realtime INSERT notification (any row of the table, any owner). -/
  | insertNotify (now : Nat) (payload : StoredRow)
  /-- A realtime DELETE notification. -/
  | deleteNotify (payload : StoredRow)
  /-- The optimistic `addToList data` performed by a successful `addBookmark`. -/
  | optimisticAdd (now : Nat) (bookmark : Bookmark)
  /-- The optimistic `removeFromList id` performed by `deleteBookmark`. -/
  | userDelete (id : String)
  /-- A 2-second highlight timer expiring. -/
  | fire (id : String) (t : Nat)

/-- Effect of a single event on the controller state, for session
identity `userId`. -/
def step (userId : String) (e : Event) (s : CtrlState) : CtrlState :=
  match e with
  | .insertNotify now payload => handleInsert userId now payload s
  | .deleteNotify payload => handleDelete payload s
  | .optimisticAdd now bookmark => addToList now bookmark s
  | .userDelete id => removeFromList id s
  | .fire id t => fireTimer id t s

/-- Folding a sequence of events over a state. -/
def run (userId : String) (es : List Event) (s : CtrlState) : CtrlState :=
  es.foldl (fun s e => step userId e s) s

/-! ## Add path (`addBookmark`, lines 118-155) -/

/-- JavaScript `String.prototype.trim` (a platform primitive): strip
whitespace from both ends, computed on the character list. -/
def jsTrim (s : String) : String :=
  ⟨((s.toList.dropWhile Char.isWhitespace).reverse.dropWhile
      Char.isWhitespace).reverse⟩

/-- Models the success condition of the WHATWG `URL` constructor
invoked as `new URL(trimUrl)` (a platform primitive, lines 126-131):
the string must start with a scheme — an ASCII letter followed by
letters, digits, `+`, `-` or `.` — terminated by a colon.  (The
platform parser additionally constrains the host part of special
schemes; no behaviour verified here depends on that refinement.) -/
def isValidURL (s : String) : Bool :=
  match s.toList.takeWhile (fun c => c != ':') with
  | [] => false
  | c :: rest =>
    s.toList.contains ':' && c.isAlpha &&
      rest.all (fun d => d.isAlphanum || d == '+' || d == '-' || d == '.')

/-- The insert request issued to the store (lines 136-140): the
`url`, `title` and `user_id` of the inserted row. -/
structure InsertRequest where
  url : String
  title : String
  user_id : String
deriving DecidableEq, Repr

/-- The store's response to `insert(...).select().single()`: either the
stored row (with server-assigned `id` and `created_at`) or an error. -/
inductive InsertResponse where
  | ok (row : StoredRow)
  | err
deriving DecidableEq, Repr

/-- Function `addBookmark` (lines 118-155), with the external store modelled as
a response function on requests.  Returns the new state together with
the request sent, `none` when validation blocked the network write.
The steps mirror the source: trim both inputs; reject when either is
empty; reject when the URL fails to parse; otherwise clear the error,
set the busy flag, issue the insert tagged with the session's
`user_id`, and on success merge the returned row through `addToList`
and clear both inputs; on both response branches the busy flag ends
dropped (`setLoading(false)` after the await). -/
def addBookmark (userId : String) (now : Nat)
    (store : InsertRequest → InsertResponse) (s : CtrlState) :
    CtrlState × Option InsertRequest :=
  if jsTrim s.url == "" || jsTrim s.title == "" then
    ({ s with error := some "Both title and URL are required." }, none)
  else if !(isValidURL (jsTrim s.url)) then
    ({ s with error := some "Please enter a valid URL — e.g. https://example.com" }, none)
  else
    match store ⟨jsTrim s.url, jsTrim s.title, userId⟩ with
    | .err =>
      ({ s with error := some "Failed to add bookmark. Please try again.",
                loading := false },
        some ⟨jsTrim s.url, jsTrim s.title, userId⟩)
    | .ok row =>
      ({ addToList now row.toBookmark { s with error := none, loading := true } with
           url := "", title := "", loading := false },
        some ⟨jsTrim s.url, jsTrim s.title, userId⟩)

/-! ## Delete path (`deleteBookmark`, lines 158-183) -/

/-- Outcome of the delete request and, when it failed, of the rollback
re-fetch: `failed` is whether `deleteError` was non-null, `refetch` the
`data` of the recovery query (`none` when that query returned null). -/
structure DeleteOutcome where
  failed : Bool
  refetch : Option (List Bookmark)
deriving DecidableEq, Repr

/-- The synchronous prefix of `deleteBookmark` (lines 160-162), run
before the delete request is awaited: optimistic `removeFromList id`,
then `setDeleting(id)`. -/
def deleteBookmarkStart (id : String) (s : CtrlState) : CtrlState :=
  { removeFromList id s with deleting := some id }

/-- The continuation of `deleteBookmark` once the delete response has
arrived (lines 170-180): on failure, re-fetch the full record set and,
when the query returned data, replace the list wholesale; in every
case finish with `setDeleting(null)`. -/
def deleteBookmarkFinish (outcome : DeleteOutcome) (s : CtrlState) : CtrlState :=
  let s1 :=
    if outcome.failed then
      match outcome.refetch with
      | some data => { s with bookmarks := data }
      | none => s
    else s
  { s1 with deleting := none }

/-- A whole call `deleteBookmark id` in which no other event interleaves
between the optimistic removal and the response. -/
def deleteBookmark (id : String) (outcome : DeleteOutcome) (s : CtrlState) :
    CtrlState :=
  deleteBookmarkFinish outcome (deleteBookmarkStart id s)

/-! ## Snapshot loader (`src/app/dashboard/page.tsx`, lines 6-17) -/

/-- The Record Store answering the snapshot query
`from("bookmarks").select("*").order("created_at", descending)`
(external service): row-level security restricts the result to rows
owned by the session's identity, ordered by creation timestamp
descending. -/
def snapshotQuery (db : List StoredRow) (userId : String) : List StoredRow :=
  (db.filter (fun r => r.user_id == userId)).mergeSort
    (fun a b => b.created_at ≤ a.created_at)

/-- The initial list of `DashboardContent`: the query's `data` when it
succeeded, else — `bookmarks ?? []` — the empty list. -/
def dashboardInitial (db : List StoredRow) (userId : String)
    (queryFails : Bool) : List StoredRow :=
  (if queryFails then none else some (snapshotQuery db userId)).getD []

/-! ## Sample data for concrete instantiations -/

/-- A sample stored bookmark (the spec's `a1`). -/
def bm1 : Bookmark := ⟨"a1", "https://news.ycombinator.com", "HN", 10⟩

/-- A second sample bookmark (the spec's `a2`). -/
def bm2 : Bookmark := ⟨"a2", "https://example.com", "Example", 5⟩

/-- A record sharing `bm1`'s identifier but differing in every other
field. -/
def bm1Conflict : Bookmark := ⟨"a1", "https://evil.example", "Other", 999⟩

/-- A controller state holding `[a1, a2]`, otherwise quiescent. -/
def sampleState : CtrlState :=
  ⟨[bm1, bm2], "", "", false, none, none, [], [], .connecting⟩

/-- The within-mount connectivity transitions asserted by the spec's
state machine, stated from the spec's words for comparison with
`statusOfEvent`: `connecting → connected`, `connecting → errored`,
`connected → errored`, and none other (moves back to `connecting`
happen only on a fresh subscribe attempt after remount). -/
def specStatusTransition (src tgt : RealtimeStatus) : Bool :=
  match src, tgt with
  | .connecting, .connected => true
  | .connecting, .error => true
  | .connected, .error => true
  | _, _ => false

/-! ## Helper lemmas -/

/-- Unfolding of the list component of `addToList`. -/
theorem addToList_bookmarks (now : Nat) (b : Bookmark) (s : CtrlState) :
    (addToList now b s).bookmarks =
      if s.bookmarks.any (fun x => x.id == b.id) then s.bookmarks
      else b :: s.bookmarks := rfl

/-- After `addToList`, the inserted identifier is in the marker set. -/
theorem mem_newIds_addToList (now : Nat) (b : Bookmark) (s : CtrlState) :
    b.id ∈ (addToList now b s).newIds := by
  show b.id ∈ setAdd b.id s.newIds
  unfold setAdd
  split
  · next h => exact List.elem_iff.mp h
  · exact List.mem_cons_self _ _

/-- An identifier already present in the list makes `addToList` keep
the list untouched. -/
theorem addToList_of_mem (now : Nat) (b : Bookmark) (s : CtrlState)
    (h : ∃ c ∈ s.bookmarks, c.id = b.id) :
    (addToList now b s).bookmarks = s.bookmarks := by
  obtain ⟨c, hc, he⟩ := h
  rw [addToList_bookmarks, if_pos]
  exact List.any_eq_true.mpr ⟨c, hc, beq_iff_eq.mpr he⟩

/-- Insertion preserves freedom from duplicate identifiers. -/
theorem nodup_addToList (now : Nat) (b : Bookmark) (s : CtrlState)
    (h : (s.bookmarks.map (fun x => x.id)).Nodup) :
    ((addToList now b s).bookmarks.map (fun x => x.id)).Nodup := by
  rw [addToList_bookmarks]
  split
  · exact h
  · next hany =>
    rw [List.map_cons]
    refine List.Nodup.cons ?_ h
    intro hmem
    obtain ⟨c, hc, he⟩ := List.mem_map.mp hmem
    exact (List.any_eq_false.mp (Bool.eq_false_iff.mpr hany) c hc)
      (beq_iff_eq.mpr he)

/-- Filtering preserves freedom from duplicate identifiers. -/
theorem nodup_filter_bookmarks (p : Bookmark → Bool) (l : List Bookmark)
    (h : (l.map (fun x => x.id)).Nodup) :
    ((l.filter p).map (fun x => x.id)).Nodup :=
  List.Nodup.sublist (List.Sublist.map _ (List.filter_sublist l)) h

/-- Every single event preserves the duplicate-free-identifier
invariant of the list. -/
theorem nodup_step (userId : String) (e : Event) (s : CtrlState)
    (h : (s.bookmarks.map (fun x => x.id)).Nodup) :
    (((step userId e s).bookmarks).map (fun x => x.id)).Nodup := by
  cases e with
  | insertNotify now payload =>
    show (((handleInsert userId now payload s).bookmarks).map _).Nodup
    unfold handleInsert
    split
    · exact h
    · exact nodup_addToList _ _ _ h
  | deleteNotify payload => exact nodup_filter_bookmarks _ _ h
  | optimisticAdd now b => exact nodup_addToList _ _ _ h
  | userDelete id => exact nodup_filter_bookmarks _ _ h
  | fire id t => exact h

/-- Runs preserve the duplicate-free-identifier invariant. -/
theorem nodup_run (userId : String) (es : List Event) (s : CtrlState)
    (h : (s.bookmarks.map (fun x => x.id)).Nodup) :
    (((run userId es s).bookmarks).map (fun x => x.id)).Nodup := by
  induction es generalizing s with
  | nil => exact h
  | cons e es ih => exact ih _ (nodup_step userId e s h)

/-- The highlight-clearing callback removes the identifier from the
marker set, whatever the rest of the state is. -/
theorem not_mem_newIds_fireTimer (id : String) (t : Nat) (s : CtrlState) :
    id ∉ (fireTimer id t s).newIds := by
  intro hmem
  have := (List.mem_filter.mp hmem).2
  simp at this

/-! ## Claim theorems -/

/-- C1: every sequence of insert-reconciliation and
delete-reconciliation calls — optimistic adds, remote insert/delete
notifications, user deletes (and timer expiries) — applied to an
initially duplicate-free list keeps the list free of two records with
the same identifier, and `addToList` on an already-present identifier
leaves the list unchanged. -/
theorem c1_dedup_invariant (userId : String) (es : List Event) (s : CtrlState)
    (h : (s.bookmarks.map (fun x => x.id)).Nodup) :
    (((run userId es s).bookmarks).map (fun x => x.id)).Nodup ∧
    ∀ (now : Nat) (b : Bookmark), (∃ c ∈ s.bookmarks, c.id = b.id) →
      (addToList now b s).bookmarks = s.bookmarks :=
  ⟨nodup_run userId es s h, fun now b hb => addToList_of_mem now b s hb⟩

/-- Witness for C1: a concrete interleaved run — an optimistic add of
`a1`, the echoed insert notification for `a1` (absorbed as a no-op), a
foreign-owner insert, a user delete of `a2` and a delete notification —
keeps the list duplicate-free. -/
theorem c1_dedup_invariant_witness :
    ((sampleState.bookmarks.map (fun x => x.id)).Nodup) ∧
    ((((run "u"
        [.optimisticAdd 3 ⟨"a3", "https://u", "U", 3⟩,
         .insertNotify 4 ⟨"a3", "https://u", "U", "u", 3⟩,
         .insertNotify 5 ⟨"a9", "https://m", "M", "mallory", 4⟩,
         .userDelete "a2",
         .deleteNotify ⟨"a3", "https://u", "U", "u", 3⟩]
        sampleState).bookmarks).map (fun x => x.id)).Nodup ∧
      ∀ (now : Nat) (b : Bookmark), (∃ c ∈ sampleState.bookmarks, c.id = b.id) →
        (addToList now b sampleState).bookmarks = sampleState.bookmarks) :=
  ⟨by decide,
   c1_dedup_invariant "u"
     [.optimisticAdd 3 ⟨"a3", "https://u", "U", 3⟩,
      .insertNotify 4 ⟨"a3", "https://u", "U", "u", 3⟩,
      .insertNotify 5 ⟨"a9", "https://m", "M", "mallory", 4⟩,
      .userDelete "a2",
      .deleteNotify ⟨"a3", "https://u", "U", "u", 3⟩]
     sampleState (by decide)⟩

/-- C2: an insert notification whose `user_id` differs from the
session's identity leaves the whole controller state unchanged — no
field of the state, in particular not the list, reflects the record. -/
theorem c2_owner_filter (userId : String) (now : Nat) (payload : StoredRow)
    (s : CtrlState) (h : payload.user_id ≠ userId) :
    handleInsert userId now payload s = s := by
  unfold handleInsert
  rw [if_pos (bne_iff_ne.mpr h)]

/-- Witness for C2: a notification owned by `mallory` arriving in
`u`'s session is discarded. -/
theorem c2_owner_filter_witness :
    ("mallory" : String) ≠ "u" ∧
    handleInsert "u" 7 ⟨"a9", "https://m", "M", "mallory", 4⟩ sampleState =
      sampleState :=
  ⟨by decide,
   c2_owner_filter "u" 7 ⟨"a9", "https://m", "M", "mallory", 4⟩ sampleState
     (by decide)⟩

/-- C9: `addToList` with a record whose identifier is already present
but whose other fields differ leaves the list — every field of the
stored record included — exactly as it was: the incoming payload is
discarded wholesale. -/
theorem c9_first_writer_wins (now : Nat) (b : Bookmark) (s : CtrlState)
    (h : ∃ c ∈ s.bookmarks, c.id = b.id) :
    (addToList now b s).bookmarks = s.bookmarks :=
  addToList_of_mem now b s h

/-- Witness for C9: a payload reusing identifier `a1` with a different
URL, title and timestamp leaves `[a1, a2]` untouched. -/
theorem c9_first_writer_wins_witness :
    (∃ c ∈ sampleState.bookmarks, c.id = bm1Conflict.id) ∧
    (addToList 7 bm1Conflict sampleState).bookmarks = sampleState.bookmarks :=
  ⟨⟨bm1, by decide, by decide⟩,
   c9_first_writer_wins 7 bm1Conflict sampleState ⟨bm1, by decide, by decide⟩⟩

/-- C10: `deleteBookmark` sets the mid-deletion marker to the target
identifier immediately after its synchronous prefix and resets it to
`null` at completion, for every outcome (success and failure paths
alike); and by construction of the state — the marker is a single
optional identifier — at most one record is flagged at any time. -/
theorem c10_deleting_marker (id : String) (outcome : DeleteOutcome)
    (s : CtrlState) :
    (deleteBookmarkStart id s).deleting = some id ∧
    (deleteBookmark id outcome s).deleting = none ∧
    ∀ s' : CtrlState, (s'.deleting).toList.length ≤ 1 := by
  refine ⟨rfl, ?_, ?_⟩
  · unfold deleteBookmark deleteBookmarkFinish
    split <;> [skip; rfl]
    split <;> rfl
  · intro s'
    cases s'.deleting <;> simp

/-- C6 counterexample: `addToList` on an identifier that is already in
the list is a membership no-op, yet the "recently arrived" marker for
that identifier is still added — the marker is not added exactly on
actual insertion, contradicting the claim. -/
theorem c6_marker_on_duplicate_counterexample :
    (addToList 0 bm1 sampleState).bookmarks = sampleState.bookmarks ∧
    "a1" ∉ sampleState.newIds ∧
    "a1" ∈ (addToList 0 bm1 sampleState).newIds := by
  decide

/-- C6 (amended): the marker for an identifier is added on every
`addToList` call for it — also when list membership is a no-op — is
present immediately after the call, and is absent immediately after
the 2-second clear callback scheduled by that call runs, whatever
other events occurred in between. -/
theorem c6_highlight_window (now : Nat) (b : Bookmark) (s : CtrlState) :
    b.id ∈ (addToList now b s).newIds ∧
    ∀ (userId : String) (es : List Event) (t : Nat),
      b.id ∉ (fireTimer b.id t (run userId es (addToList now b s))).newIds :=
  ⟨mem_newIds_addToList now b s,
   fun _ _ t => not_mem_newIds_fireTimer b.id t _⟩

/-- C7 counterexample: with the status `errored`, a subscription
acknowledgment event moves the status to `connected` — the callback
ignores the current value — which is neither one of the claimed
transitions nor a move to `connecting` on a fresh subscribe attempt. -/
theorem c7_status_counterexample :
    (onSubscribeStatus .SUBSCRIBED
        { sampleState with realtimeStatus := .error }).realtimeStatus =
      .connected ∧
    specStatusTransition .error .connected = false ∧
    (RealtimeStatus.connected ≠ .connecting) := by
  decide

/-- C7 (amended): the connectivity status is a function of the latest
subscription lifecycle event alone, irrespective of the current value:
acknowledgment yields `connected`, rejection and timeout yield
`errored`, and every other status (`CLOSED`) yields `connecting`; in
particular each claimed transition is realized and no status is
terminal. -/
theorem c7_status_tracks_latest_event :
    (∀ (e : SubStatus) (s : CtrlState),
        (onSubscribeStatus e s).realtimeStatus = statusOfEvent e) ∧
    statusOfEvent .SUBSCRIBED = .connected ∧
    statusOfEvent .CHANNEL_ERROR = .error ∧
    statusOfEvent .TIMED_OUT = .error ∧
    statusOfEvent .CLOSED = .connecting ∧
    ∀ v : RealtimeStatus, ∃ e : SubStatus, statusOfEvent e ≠ v := by
  refine ⟨fun e s => rfl, rfl, rfl, rfl, rfl, ?_⟩
  intro v
  cases v with
  | connecting => exact ⟨.SUBSCRIBED, by decide⟩
  | connected => exact ⟨.CLOSED, by decide⟩
  | error => exact ⟨.SUBSCRIBED, by decide⟩

/-- C3: deleting identifier `id` removes it from the list immediately
(before the network call), and when the delete request fails and the
rollback re-fetch returns data, the local list is replaced wholesale
by that fetch result. -/
theorem c3_optimistic_delete_rollback (id : String) (outcome : DeleteOutcome)
    (s : CtrlState) (data : List Bookmark)
    (hfail : outcome.failed = true) (hdata : outcome.refetch = some data) :
    (deleteBookmarkStart id s).bookmarks =
      s.bookmarks.filter (fun b => b.id != id) ∧
    (deleteBookmark id outcome s).bookmarks = data := by
  refine ⟨rfl, ?_⟩
  unfold deleteBookmark deleteBookmarkFinish
  rw [hfail]
  simp only [if_pos]
  rw [hdata]

/-- Witness for C3: the spec's example — from `[a1, a2]`, deleting
`a1` yields `[a2]` immediately; the delete request fails and the
re-fetch still returns `[a1, a2]`, so the list goes back to
`[a1, a2]`. -/
theorem c3_optimistic_delete_rollback_witness :
    (DeleteOutcome.mk true (some [bm1, bm2])).failed = true ∧
    (DeleteOutcome.mk true (some [bm1, bm2])).refetch = some [bm1, bm2] ∧
    ((deleteBookmarkStart "a1" sampleState).bookmarks =
        sampleState.bookmarks.filter (fun b => b.id != "a1") ∧
      (deleteBookmark "a1" ⟨true, some [bm1, bm2]⟩ sampleState).bookmarks =
        [bm1, bm2]) :=
  ⟨rfl, rfl,
   c3_optimistic_delete_rollback "a1" ⟨true, some [bm1, bm2]⟩ sampleState
     [bm1, bm2] rfl rfl⟩

/-- C4: when validation passes and the store accepts the insert, the
returned row (with server-assigned identifier and timestamp) is merged
through the idempotent insert path: prepended when its identifier is
absent, a membership no-op otherwise.  In particular from the empty
list the result is exactly the one returned record. -/
theorem c4_add_success (userId : String) (now : Nat)
    (store : InsertRequest → InsertResponse) (s : CtrlState) (row : StoredRow)
    (hu : jsTrim s.url ≠ "") (ht : jsTrim s.title ≠ "")
    (hv : isValidURL (jsTrim s.url) = true)
    (hstore : store ⟨jsTrim s.url, jsTrim s.title, userId⟩ = .ok row) :
    (addBookmark userId now store s).1.bookmarks =
      (if s.bookmarks.any (fun b => b.id == row.toBookmark.id)
       then s.bookmarks else row.toBookmark :: s.bookmarks) := by
  unfold addBookmark
  rw [if_neg, if_neg]
  · rw [hstore]
    rfl
  · rw [hv]
    decide
  · simp only [Bool.or_eq_true, beq_iff_eq, not_or]
    exact ⟨hu, ht⟩

/-- Witness for C4: the spec's example — initial list `[]`, inputs
title `"HN"` and URL `"https://news.ycombinator.com"`, a successful
response carrying server-assigned id `"a1"` — yields exactly `[a1]`. -/
theorem c4_add_success_witness :
    let s0 : CtrlState :=
      ⟨[], "https://news.ycombinator.com", "HN", false, none, none, [], [],
        .connecting⟩
    let row : StoredRow := ⟨"a1", "https://news.ycombinator.com", "HN", "u", 100⟩
    jsTrim s0.url ≠ "" ∧ jsTrim s0.title ≠ "" ∧
    isValidURL (jsTrim s0.url) = true ∧
    (fun _ : InsertRequest => InsertResponse.ok row)
        ⟨jsTrim s0.url, jsTrim s0.title, "u"⟩ = .ok row ∧
    (addBookmark "u" 100 (fun _ => .ok row) s0).1.bookmarks =
      (if s0.bookmarks.any (fun b => b.id == row.toBookmark.id)
       then s0.bookmarks else row.toBookmark :: s0.bookmarks) :=
  ⟨by decide, by decide, by decide, rfl,
   c4_add_success "u" 100
     (fun _ => .ok ⟨"a1", "https://news.ycombinator.com", "HN", "u", 100⟩)
     ⟨[], "https://news.ycombinator.com", "HN", false, none, none, [], [],
       .connecting⟩
     ⟨"a1", "https://news.ycombinator.com", "HN", "u", 100⟩
     (by decide) (by decide) (by decide) rfl⟩

/-- C5: when the trimmed title or trimmed URL is empty or the URL does
not parse, `addBookmark` issues no network write, leaves the bookmark
list unchanged, and surfaces a validation error. -/
theorem c5_validation_blocks (userId : String) (now : Nat)
    (store : InsertRequest → InsertResponse) (s : CtrlState)
    (h : jsTrim s.url = "" ∨ jsTrim s.title = "" ∨
      isValidURL (jsTrim s.url) = false) :
    (addBookmark userId now store s).2 = none ∧
    (addBookmark userId now store s).1.bookmarks = s.bookmarks ∧
    ((addBookmark userId now store s).1.error).isSome = true := by
  unfold addBookmark
  by_cases h1 : (jsTrim s.url == "" || jsTrim s.title == "") = true
  · rw [if_pos h1]
    exact ⟨rfl, rfl, rfl⟩
  · have hv : isValidURL (jsTrim s.url) = false := by
      rcases h with h | h | h
      · exact absurd (by simp [h]) h1
      · exact absurd (by simp [h]) h1
      · exact h
    rw [if_neg h1, if_pos (by rw [hv]; decide)]
    exact ⟨rfl, rfl, rfl⟩

/-- Witness for C5: submitting title `"Some title"` with the malformed
URL `"not a url"` is blocked with no request sent and the list `[a1,
a2]` unchanged. -/
theorem c5_validation_blocks_witness :
    let s0 : CtrlState :=
      ⟨[bm1, bm2], "not a url", "Some title", false, none, none, [], [],
        .connecting⟩
    (jsTrim s0.url = "" ∨ jsTrim s0.title = "" ∨
      isValidURL (jsTrim s0.url) = false) ∧
    ((addBookmark "u" 3 (fun _ => .err) s0).2 = none ∧
      (addBookmark "u" 3 (fun _ => .err) s0).1.bookmarks = s0.bookmarks ∧
      ((addBookmark "u" 3 (fun _ => .err) s0).1.error).isSome = true) :=
  ⟨Or.inr (Or.inr (by decide)),
   c5_validation_blocks "u" 3 (fun _ => .err)
     ⟨[bm1, bm2], "not a url", "Some title", false, none, none, [], [],
       .connecting⟩
     (Or.inr (Or.inr (by decide)))⟩

/-- C8: the snapshot loader returns the empty list when the query
fails softly; on success it returns exactly the owner's record set
(a permutation of the owner-filtered store, so the empty list when the
owner has no records) ordered by creation timestamp descending. -/
theorem c8_snapshot_loader (db : List StoredRow) (userId : String) :
    dashboardInitial db userId true = [] ∧
    (dashboardInitial db userId false = [] ↔
      db.filter (fun r => r.user_id == userId) = []) ∧
    List.Perm (dashboardInitial db userId false)
      (db.filter (fun r => r.user_id == userId)) ∧
    (dashboardInitial db userId false).Pairwise
      (fun a b => b.created_at ≤ a.created_at) := by
  have hperm : List.Perm (dashboardInitial db userId false)
      (db.filter (fun r => r.user_id == userId)) :=
    List.mergeSort_perm _ _
  refine ⟨rfl, ⟨?_, ?_⟩, hperm, ?_⟩
  · intro h
    exact (h ▸ hperm).symm.eq_nil
  · intro h
    show (List.mergeSort _ _) = []
    rw [h]
    exact List.mergeSort_nil
  · have hs := @List.sorted_mergeSort StoredRow
      (fun a b => decide (b.created_at ≤ a.created_at))
      (fun a b c hab hbc => by
        simp only [decide_eq_true_eq] at *
        omega)
      (fun a b => by
        simp only [Bool.or_eq_true, decide_eq_true_eq]
        omega)
      (db.filter (fun r => r.user_id == userId))
    exact List.Pairwise.imp (fun hab => by simpa using hab) hs

end SmartBookmark
